import Mathlib

/-!
Shallow embedding of the SCIROOFING estimation pipeline
(`src/PermitProject/app.py`), covering:
  * the SCI pricing add-on (`generate_sci_pricing_estimate`)
  * the Broward/Palm Beach quantity estimator (`generate_broward_estimate`)
  * jurisdiction routing (`_is_palm_beach_address` and the city
    normalisation in `generate_broward_estimate`)
  * the vision-inference call contract (`_ask_openai_pitch_complexity_waste`)
  * the image data-URI plumbing shared by the report and the model request
  * the browser-session lifecycle of the two scrapers
  * the browser driver download-directory configuration (`create_driver`)

Python strings are modelled as `List Char`; Python floats are modelled as
rationals `ℚ` (the usual idealisation: the arithmetic the code performs is
expressed exactly, `round` is Python's round-half-to-even); Python values
that can be `None`, a string or a number are modelled by `PyVal`.
-/

set_option maxRecDepth 4000

/-- Python value as it appears in a JSON payload field: `None`, a string,
or a number.  (Dicts/lists never reach the modelled code paths.) -/
inductive PyVal where
  | vNone : PyVal
  | vStr : List Char → PyVal
  | vNum : ℚ → PyVal
deriving DecidableEq

/-- Python truthiness for the values above: `None`, `""` and `0` are falsy. -/
def pyTruthy : PyVal → Bool
  | .vNone => false
  | .vStr s => !s.isEmpty
  | .vNum q => q ≠ 0

/-- Python whitespace characters stripped by `str.strip()` (ASCII subset). -/
def isPyWs (c : Char) : Bool :=
  c = ' ' ∨ c = '\t' ∨ c = '\n' ∨ c = '\r' ∨ c = '\x0b' ∨ c = '\x0c'

/-- `str.strip()`: remove leading and trailing whitespace. -/
def stripL (s : List Char) : List Char :=
  ((s.dropWhile isPyWs).reverse.dropWhile isPyWs).reverse

/-- `str.lower()` (ASCII case folding, which is all the code relies on). -/
def lowerL (s : List Char) : List Char := s.map Char.toLower

/-- `needle in hay` for Python strings: substring containment. -/
def containsL (hay needle : List Char) : Bool :=
  match hay with
  | [] => needle.isEmpty
  | _ :: t => needle.isPrefixOf hay || containsL t needle

/-- `s.startswith(p)`. -/
def startsWithL (s p : List Char) : Bool := p.isPrefixOf s

/-- Round-half-to-even on rationals (Python 3 `round` to an integer). -/
def roundHalfEven (x : ℚ) : ℤ :=
  let f : ℤ := ⌊x⌋
  let frac : ℚ := x - f
  if frac < 1/2 then f
  else if frac > 1/2 then f + 1
  else if f % 2 = 0 then f else f + 1

/-- Python `round(x, n)` for nonnegative `n`: round-half-to-even at the
`n`-th decimal place. -/
def pyRound (x : ℚ) (n : ℕ) : ℚ :=
  (roundHalfEven (x * (10 : ℚ) ^ n) : ℚ) / (10 : ℚ) ^ n

/-- Digits-only decimal parse helper: value of a digit string. -/
def digitsVal (s : List Char) : ℕ :=
  s.foldl (fun acc c => acc * 10 + (c.toNat - '0'.toNat)) 0

/-- Are all characters decimal digits (and the string nonempty)? -/
def allDigits (s : List Char) : Bool :=
  !s.isEmpty && s.all (fun c => '0' ≤ c ∧ c ≤ '9')

/-- Python `float(s)` on a string, for the plain decimal forms
`[ws] [sign] digits [. digits] [ws]` the modelled payloads use
(exponent/infinity forms are outside the modelled input space). -/
def parseFloatL (s : List Char) : Option ℚ :=
  let t := stripL s
  let (sign, u) : ℚ × List Char :=
    match t with
    | '-' :: r => (-1, r)
    | '+' :: r => (1, r)
    | r => (1, r)
  match u.splitOn '.' with
  | [intPart] =>
      if allDigits intPart then some (sign * digitsVal intPart) else none
  | [intPart, fracPart] =>
      if allDigits intPart && allDigits fracPart then
        some (sign * ((digitsVal intPart : ℚ) +
          (digitsVal fracPart : ℚ) / (10 : ℚ) ^ fracPart.length))
      else if allDigits intPart && fracPart.isEmpty then
        some (sign * digitsVal intPart)
      else if intPart.isEmpty && allDigits fracPart then
        some (sign * ((digitsVal fracPart : ℚ) / (10 : ℚ) ^ fracPart.length))
      else none
  | _ => none

/-- Python `int(s)` on a string: integer literals only. -/
def parseIntL (s : List Char) : Option ℤ :=
  let t := stripL s
  match t with
  | '-' :: r => if allDigits r then some (-(digitsVal r : ℤ)) else none
  | '+' :: r => if allDigits r then some (digitsVal r : ℤ) else none
  | r => if allDigits r then some (digitsVal r : ℤ) else none

/-- Truncation toward zero: Python `int(float)`. -/
def truncQ (q : ℚ) : ℤ := q.num / (q.den : ℤ)

/-- Python `float(v)`: numbers pass through, strings are parsed,
`None` raises `TypeError` (modelled as `none`). -/
def pyFloat : PyVal → Option ℚ
  | .vNone => none
  | .vStr s => parseFloatL s
  | .vNum q => some q

/-- Python `int(v)`: numbers truncate toward zero, strings must be integer
literals, `None` raises (modelled as `none`). -/
def pyInt : PyVal → Option ℤ
  | .vNone => none
  | .vStr s => parseIntL s
  | .vNum q => some (truncQ q)

/-- `_safe_int(value, fallback)` from app.py:2300. -/
def safe_int (value : Option PyVal) (fallback : ℤ) : ℤ :=
  match value with
  | none => fallback
  | some v => (pyInt v).getD fallback

/-- `_safe_float(value, fallback)` from app.py:2307. -/
def safe_float (value : Option PyVal) (fallback : ℚ) : ℚ :=
  match value with
  | none => fallback
  | some v => (pyFloat v).getD fallback

/-- Python `str(v)` as used on the AI `complexity` field: `str(None)` is
`"None"`, strings pass through; a numeric value is rendered as digits
(possibly signed / with a decimal point) — no rendering of a number ever
coincides with a complexity key, which is all downstream code depends on. -/
def pyStr : PyVal → List Char
  | .vNone => "None".data
  | .vStr s => s
  | .vNum q => (toString q.num).data ++
      (if q.den = 1 then [] else '.' :: (toString q.den).data)

/-! ## SCI pricing add-on (app.py:2165-2219) -/

/-- `SCI_MATERIAL_PRICE_PER_SQUARE` (app.py:2165). -/
def SCI_MATERIAL_PRICE_PER_SQUARE : List (List Char × ℚ) :=
  [("shingle".data, 39431/100), ("tile".data, 55694/100), ("metal".data, 612)]

/-- `SCI_ACCESS_MULTIPLIERS` (app.py:2171). -/
def SCI_ACCESS_MULTIPLIERS : List (List Char × ℚ) :=
  [("ground".data, 1), ("2_story".data, 11/10), ("3_plus".data, 12/10)]

/-- `dict.get(key, default)` over an association list. -/
def dictGetD (tbl : List (List Char × ℚ)) (key : List Char) (dflt : ℚ) : ℚ :=
  match tbl.find? (fun kv => kv.1 = key) with
  | some kv => kv.2
  | none => dflt

/-- The payload handed to `generate_sci_pricing_estimate`: the three fields
the function reads.  A missing `squares` key is `none`. -/
structure SciPayload where
  material : List Char
  access_level : List Char
  squares : Option PyVal

/-- All local quantities computed by `generate_sci_pricing_estimate`
(app.py:2178-2219), before display rounding, plus the rounded fields of the
returned dict. -/
structure SciCalc where
  material_key : List Char
  access_key : List Char
  squares : ℚ
  price_per_square : ℚ
  access_multiplier : ℚ
  baseline_material : ℚ
  labor_and_install : ℚ
  access_adjustment : ℚ
  overhead_and_margin : ℚ
  estimated_total : ℚ
  squares_out : ℚ
  baseline_material_out : ℚ
  estimated_total_out : ℚ
deriving DecidableEq

/-- app.py:2183-2218: everything `generate_sci_pricing_estimate` computes
once the clamped `squares` value is fixed — the remaining locals and the
rounded fields of the returned dict are all functions of
(`material_key`, `access_key`, `squares`). -/
def sci_calc_from (material_key access_key : List Char) (squares : ℚ) : SciCalc :=
  let price_per_square := dictGetD SCI_MATERIAL_PRICE_PER_SQUARE material_key
    (dictGetD SCI_MATERIAL_PRICE_PER_SQUARE "shingle".data 0)
  let access_multiplier := dictGetD SCI_ACCESS_MULTIPLIERS access_key 1
  let baseline_material := squares * price_per_square
  let labor_and_install := baseline_material * (42/100)
  let access_adjustment := (baseline_material + labor_and_install) * (access_multiplier - 1)
  let overhead_and_margin :=
    (baseline_material + labor_and_install + access_adjustment) * (18/100)
  let estimated_total :=
    baseline_material + labor_and_install + access_adjustment + overhead_and_margin
  { material_key := material_key
    access_key := access_key
    squares := squares
    price_per_square := price_per_square
    access_multiplier := access_multiplier
    baseline_material := baseline_material
    labor_and_install := labor_and_install
    access_adjustment := access_adjustment
    overhead_and_margin := overhead_and_margin
    estimated_total := estimated_total
    squares_out := pyRound squares 1
    baseline_material_out := pyRound baseline_material 0
    estimated_total_out := pyRound estimated_total 0 }

/-- `generate_sci_pricing_estimate(payload)` (app.py:2178).  Returns `none`
exactly when `float(...)` on the squares value raises (non-numeric string).
`squares = max(float(payload.get("squares", 0) or 0), 0.1)`. -/
def generate_sci_pricing_estimate (payload : SciPayload) : Option SciCalc :=
  let material_key := lowerL (stripL payload.material)
  let access_key := lowerL (stripL payload.access_level)
  let rawSquares : PyVal :=
    let got := payload.squares.getD (.vNum 0)
    if pyTruthy got then got else .vNum 0
  match pyFloat rawSquares with
  | none => none
  | some s => some (sci_calc_from material_key access_key (max s (1/10)))

/-! ## Broward estimator constants (app.py:2284-2297) -/

/-- `BROWARD_PITCH_MULTIPLIERS` (app.py:2284). -/
def BROWARD_PITCH_MULTIPLIERS : List (ℤ × ℚ) :=
  [(0, 1), (2, 1014/1000), (3, 1031/1000), (4, 1054/1000),
   (5, 1083/1000), (6, 1118/1000), (7, 1158/1000), (8, 1202/1000),
   (9, 1250/1000), (10, 1302/1000), (12, 1414/1000)]

/-- `dict.get(key, default)` over an integer-keyed association list. -/
def dictGetDZ (tbl : List (ℤ × ℚ)) (key : ℤ) (dflt : ℚ) : ℚ :=
  match tbl.find? (fun kv => kv.1 = key) with
  | some kv => kv.2
  | none => dflt

/-- `BROWARD_COMPLEXITY_MULTIPLIERS` (app.py:2289). -/
def BROWARD_COMPLEXITY_MULTIPLIERS : List (List Char × ℚ) :=
  [("simple".data, 1), ("moderate".data, 105/100), ("complex".data, 110/100)]

/-- `BROWARD_ESTIMATOR_ADJUSTMENT` (app.py:2294). -/
def BROWARD_ESTIMATOR_ADJUSTMENT : ℚ := 106/100

/-- `BROWARD_WASTE_OPTIONS` (app.py:2295). -/
def BROWARD_WASTE_OPTIONS : List ℤ := [0, 10, 12, 15, 17, 20, 22]

/-! ## Jurisdiction routing (app.py:2450-2461 and 2711-2722) -/

/-- The Palm Beach city set of `_is_palm_beach_address` (app.py:2452). -/
def palm_beach_cities : List (List Char) :=
  ["boca raton".data, "boynton beach".data, "delray beach".data, "jupiter".data,
   "lake worth".data, "lake worth beach".data, "west palm beach".data,
   "wellington".data, "palm beach gardens".data, "riviera beach".data,
   "greenacres".data, "palm springs".data, "lantana".data, "north palm beach".data]

/-- `_is_palm_beach_address(address, city)` (app.py:2450). -/
def is_palm_beach_address (address city : List Char) : Bool :=
  let combined := lowerL (address ++ ' ' :: city)
  if containsL combined "palm beach county".data then true
  else if containsL (lowerL city) "palm beach".data then true
  else (lowerL (stripL city)) ∈ palm_beach_cities

/-- The Broward-area city set of `generate_broward_estimate` (app.py:2717). -/
def broward_area_cities : List (List Char) :=
  ["fort lauderdale".data, "hollywood".data, "pompano beach".data,
   "coral springs".data, "sunrise".data, "weston".data, "davie".data,
   "plantation".data, "miramar".data, "coconut creek".data,
   "deerfield beach".data, "oakland park".data, "lauderhill".data, "tamarac".data]

/-- Which scraper variant an estimate request is routed to. -/
inductive Variant where
  | palmBeach : Variant
  | broward : Variant
deriving DecidableEq

/-- Jurisdiction routing of `generate_broward_estimate` (app.py:2711-2722):
strip the city, test `_is_palm_beach_address`, and for the Broward branch
normalise the city label before invoking the Broward scraper. -/
def route_jurisdiction (address city : List Char) : Variant × List Char :=
  let cleaned_city := stripL city
  if is_palm_beach_address address cleaned_city then
    (.palmBeach, cleaned_city)
  else
    if !containsL (lowerL cleaned_city) "broward".data &&
        !(lowerL cleaned_city ∈ broward_area_cities : Bool) then
      (.broward, if cleaned_city.isEmpty then "Broward".data
                 else cleaned_city ++ " (Broward)".data)
    else
      (.broward, cleaned_city)

/-! ## Vision inference contract and the Broward numeric core
(app.py:2609-2703 and 2782-2840) -/

/-- The parsed JSON object handed back by
`_ask_openai_pitch_complexity_waste`: each of the three fields may be
missing or hold an arbitrary JSON value. -/
structure AIGuess where
  pitch : Option PyVal
  complexity : Option PyVal
  waste_percent : Option PyVal
deriving DecidableEq

/-- Error text of the `RuntimeError` raised at app.py:2616. -/
def openai_key_error : List Char :=
  "OPENAI_API_KEY is required for Broward and Palm Beach Estimator.".data

/-- Error text of the `RuntimeError` raised at app.py:2654. -/
def map_missing_error : List Char :=
  "Map image missing/unreadable; cannot run Broward and Palm Beach Estimator.".data

/-- Outcome of `_ask_openai_pitch_complexity_waste` (app.py:2609-2703):
with no API key it raises before doing anything; with an unreadable map it
raises; otherwise the network call plus `_extract_json_object` either
raises (network error, timeout, empty or non-JSON response — abstracted as
`callOutcome = .error msg`) or yields the parsed JSON object. -/
def ask_openai_pitch_complexity_waste (hasKey : Bool) (mapPartOk : Bool)
    (callOutcome : Except (List Char) AIGuess) : Except (List Char) AIGuess :=
  if !hasKey then .error openai_key_error
  else if !mapPartOk then .error map_missing_error
  else callOutcome

/-- One row of the `waste_breakdown` list (app.py:2800-2808). -/
structure WasteRow where
  waste : ℤ
  area : ℚ
  squares : ℚ
  recommended : Bool
deriving DecidableEq

/-- The dict returned by `generate_broward_estimate` (app.py:2823-2840),
restricted to its numeric fields (the `_out` fields carry the display
rounding applied in the return expression). -/
structure BrowardEstimate where
  ground_area_out : ℚ
  pitch : ℤ
  complexity : List Char
  recommended_waste_out : ℚ
  adjusted_surface : ℚ
  final_area : ℚ
  final_squares : ℚ
  adjusted_surface_out : ℚ
  final_area_out : ℚ
  final_squares_out : ℚ
  waste_breakdown : List WasteRow
deriving DecidableEq

/-- The numeric core of `generate_broward_estimate` (app.py:2792-2840):
from resolved ground area and the pitch/complexity/waste actually used,
compute multipliers, surfaces, final quantities and the waste table. -/
def broward_quantities (ground_area : ℚ) (pitch : ℤ) (complexity : List Char)
    (waste_percent : ℚ) : BrowardEstimate :=
  let pitch_multiplier := dictGetDZ BROWARD_PITCH_MULTIPLIERS pitch (1118/1000)
  let complexity_multiplier := dictGetD BROWARD_COMPLEXITY_MULTIPLIERS complexity (105/100)
  let roof_surface := ground_area * pitch_multiplier * complexity_multiplier
  let adjusted_surface := roof_surface * BROWARD_ESTIMATOR_ADJUSTMENT
  let final_area := adjusted_surface * (1 + waste_percent / 100)
  let final_squares := final_area / 100
  let waste_breakdown := BROWARD_WASTE_OPTIONS.map (fun (option : ℤ) =>
    let area_option := adjusted_surface * (1 + (option : ℚ) / 100)
    ({ waste := option
       area := pyRound area_option 0
       squares := pyRound (area_option / 100) 1
       recommended := |(option : ℚ) - waste_percent| < 11/10 } : WasteRow))
  { ground_area_out := pyRound ground_area 0
    pitch := pitch
    complexity := complexity
    recommended_waste_out := pyRound waste_percent 1
    adjusted_surface := adjusted_surface
    final_area := final_area
    final_squares := final_squares
    adjusted_surface_out := pyRound adjusted_surface 0
    final_area_out := pyRound final_area 0
    final_squares_out := pyRound final_squares 1
    waste_breakdown := waste_breakdown }

/-- app.py:2788-2790: how the AI guess is coerced before use. -/
def guess_pitch (g : AIGuess) : ℤ := safe_int g.pitch 5

/-- app.py:2789: `str(ai_guess.get("complexity", "moderate")).lower()`. -/
def guess_complexity (g : AIGuess) : List Char :=
  lowerL (pyStr (g.complexity.getD (.vStr "moderate".data)))

/-- app.py:2790: `_safe_float(ai_guess.get("waste_percent"), 12.0)`. -/
def guess_waste (g : AIGuess) : ℚ := safe_float g.waste_percent 12

/-- The tail of `generate_broward_estimate` from the inference call on
(app.py:2782-2840).  The call at app.py:2782 is NOT wrapped in any
`try/except`, so an exception from
`_ask_openai_pitch_complexity_waste` propagates to the caller: here that
is the `.error` branch passing through unchanged. -/
def generate_broward_estimate_core (ground_area : ℚ)
    (aiResult : Except (List Char) AIGuess) : Except (List Char) BrowardEstimate :=
  match aiResult with
  | .error msg => .error msg
  | .ok ai_guess =>
      .ok (broward_quantities ground_area (guess_pitch ai_guess)
        (guess_complexity ai_guess) (guess_waste ai_guess))

/-! ## Image data-URI plumbing (app.py:2618-2659 and 2727-2786) -/

/-- The base64 alphabet used by `base64.b64encode`. -/
def b64Alphabet : List Char :=
  "ABCDEFGHIJKLMNOPQRSTUVWXYZabcdefghijklmnopqrstuvwxyz0123456789+/".data

/-- Character for a 6-bit group. -/
def b64Char (i : ℕ) : Char := b64Alphabet.getD i '='

/-- `base64.b64encode` on a byte list (bytes are naturals below 256). -/
def b64Encode : List ℕ → List Char
  | [] => []
  | [a] =>
      let n := a * 65536
      [b64Char (n / 262144 % 64), b64Char (n / 4096 % 64), '=', '=']
  | [a, b] =>
      let n := a * 65536 + b * 256
      [b64Char (n / 262144 % 64), b64Char (n / 4096 % 64), b64Char (n / 64 % 64), '=']
  | a :: b :: c :: rest =>
      let n := a * 65536 + b * 256 + c
      b64Char (n / 262144 % 64) :: b64Char (n / 4096 % 64) ::
        b64Char (n / 64 % 64) :: b64Char (n % 64) :: b64Encode rest

/-- `f"data:image/jpeg;base64,{b64}"` (app.py:2742). -/
def jpeg_data_uri (content : List ℕ) : List Char :=
  "data:image/jpeg;base64,".data ++ b64Encode content

/-- `f"data:image/png;base64,{b64}"` (app.py:2621 and 2758/2770). -/
def png_data_uri (content : List ℕ) : List Char :=
  "data:image/png;base64,".data ++ b64Encode content

/-- `_as_image_url_obj(value)` (app.py:2623-2649), returning the `url`
field of the image part it builds, or `none` when no part is built.
`fileBytes` abstracts `os.path.exists` + reading the file: `some` content
when the path exists and is readable. -/
def as_image_url_obj (fileBytes : List Char → Option (List ℕ))
    (value : List Char) : Option (List Char) :=
  if value.isEmpty then none
  else
    let v := stripL value
    if startsWithL v "data:image/".data then some v
    else if startsWithL v "http://".data || startsWithL v "https://".data then some v
    else
      match fileBytes v with
      | some content => some (png_data_uri content)
      | none => none

/-- What one scraper variant hands back to `generate_broward_estimate`
(the dicts built at app.py:2440-2445 and 2597-2604). -/
structure ScrapeData where
  photo_url : List Char
  sketch_text : List Char
  sketch_file : List Char
  map_file : List Char
  street_file : Option (List Char)
  ground_area : Option PyVal

/-- The outside world of the image-embedding phase: `requests.get`
(`some` body on HTTP 2xx, `none` when the request raises) and local file
reads (`some` content when the path exists and `open(...).read()`
succeeds). -/
structure FetchWorld where
  httpGet : List Char → Option (List ℕ)
  fileRead : List Char → Option (List ℕ)

/-- `photo_data_uri` as computed at app.py:2728-2746 plus the Palm Beach
street-view fallback at app.py:2765-2773; empty string when no photo could
be embedded. -/
def photo_data_uri (d : ScrapeData) (w : FetchWorld) : List Char :=
  let fromUrl : List Char :=
    if startsWithL d.photo_url "http://".data || startsWithL d.photo_url "https://".data then
      match w.httpGet d.photo_url with
      | some content => jpeg_data_uri content
      | none => []
    else []
  if fromUrl.isEmpty then
    match d.street_file with
    | some p =>
        match w.fileRead p with
        | some blob => png_data_uri blob
        | none => []
    | none => []
  else fromUrl

/-- `sketch_data_uri` as computed at app.py:2749-2762; empty string when
the sketch file is absent or unreadable. -/
def sketch_data_uri (d : ScrapeData) (w : FetchWorld) : List Char :=
  if d.sketch_file.isEmpty then []
  else
    match w.fileRead d.sketch_file with
    | some blob => png_data_uri blob
    | none => []

/-- The three positional arguments passed to
`_ask_openai_pitch_complexity_waste` at app.py:2782-2786. -/
structure AICallArgs where
  photo_input : List Char
  sketch_input : List Char
  map_file : List Char
deriving DecidableEq

/-- app.py:2782-2786: the inference call receives the two data URIs and
the map file path. -/
def inference_args (d : ScrapeData) (w : FetchWorld) : AICallArgs :=
  { photo_input := photo_data_uri d w
    sketch_input := sketch_data_uri d w
    map_file := d.map_file }

/-- app.py:2836: `"report_front_image": photo_data_uri`. -/
def report_front_image (d : ScrapeData) (w : FetchWorld) : List Char :=
  photo_data_uri d w

/-- app.py:2837: `"report_sketch_image": sketch_data_uri`. -/
def report_sketch_image (d : ScrapeData) (w : FetchWorld) : List Char :=
  sketch_data_uri d w

/-! ## Scraper session lifecycle (app.py:2375-2447 and 2464-2606) -/

/-- Observable session events of one scraper run. -/
inductive SessionEv where
  | acquire : SessionEv
  | act : List Char → SessionEv
  | release : SessionEv
deriving DecidableEq

/-- Run the body steps in order; a step on which `fails` holds raises,
abandoning the remaining steps.  Returns the per-step events and whether
the body completed normally. -/
def bodyTrace (fails : List Char → Bool) : List (List Char) → List SessionEv × Bool
  | [] => ([], true)
  | s :: rest =>
      if fails s then ([SessionEv.act s], false)
      else
        let t := bodyTrace fails rest
        (SessionEv.act s :: t.1, t.2)

/-- A scraper run: `driver = create_driver()` happens before the `try`, so
when driver creation fails no session exists at all; otherwise the body
runs inside `try ... finally: driver.quit()`, so the release happens after
the body whether or not the body raised (app.py:2375-2447, 2464-2606). -/
def run_scraper_session (createOk : Bool) (fails : List Char → Bool)
    (steps : List (List Char)) : List SessionEv × Bool :=
  if createOk then
    let t := bodyTrace fails steps
    (SessionEv.acquire :: t.1 ++ [SessionEv.release], t.2)
  else ([], false)

/-- The browser steps of `_bcpa_collect_property_data` (app.py:2375-2447)
in source order. -/
def bcpa_steps : List (List Char) :=
  ["navigate_record_search".data, "locate_address_box".data, "enter_address".data,
   "click_search".data, "open_record_link".data, "capture_photo_url".data,
   "open_sketch_window".data, "read_sketch_text".data, "resize_for_sketch".data,
   "screenshot_sketch".data, "close_sketch_window".data,
   "open_map_window".data, "screenshot_map".data, "close_map_window".data]

/-- The browser steps of `_pbcpao_collect_property_data`
(app.py:2464-2606) in source order. -/
def pbcpao_steps : List (List Char) :=
  ["navigate_home".data, "autocomplete_search".data, "read_ground_area".data,
   "remove_old_pdfs".data, "click_sketch".data, "capture_sketch_tab".data,
   "poll_for_pdf".data, "render_pdf".data, "open_gis_tab".data,
   "open_tools_panel".data, "open_print_tab".data, "screenshot_map".data,
   "close_print_tab".data, "open_google_tab".data, "street_view".data,
   "screenshot_street".data]

/-! ## Driver configuration and working files (app.py:2296-2297, 2355-2373) -/

/-- The Chrome preferences dict built in `create_driver` (app.py:2365). -/
structure DriverPrefs where
  download_default_directory : List Char
  prompt_for_download : Bool
  directory_upgrade : Bool
  always_open_pdf_externally : Bool
deriving DecidableEq

/-- The driver configuration produced by `create_driver` (app.py:2355). -/
structure DriverConfig where
  headless : Bool
  window_width : ℕ
  window_height : ℕ
  prefs : DriverPrefs
deriving DecidableEq

/-- `BROWARD_OUTPUT_DIR = os.path.join(BASE_DIR, "bcpa_outputs")`
(app.py:2296), parameterised by the process-wide `BASE_DIR`. -/
def BROWARD_OUTPUT_DIR (base_dir : List Char) : List Char :=
  base_dir ++ "/bcpa_outputs".data

/-- `create_driver()` (app.py:2355-2373): it takes no per-request input
and always points downloads at the module-level `BROWARD_OUTPUT_DIR`. -/
def create_driver (base_dir : List Char) : DriverConfig :=
  { headless := true
    window_width := 1920
    window_height := 1080
    prefs :=
      { download_default_directory := BROWARD_OUTPUT_DIR base_dir
        prompt_for_download := false
        directory_upgrade := true
        always_open_pdf_externally := true } }

/-- The driver configuration a given estimate request's run receives:
both scrapers call the zero-argument `create_driver()` (app.py:2376,
2465), so the request is ignored. -/
def driver_config_for_run (base_dir : List Char)
    (_request : List Char × List Char) : DriverConfig :=
  create_driver base_dir

/-- `sketch_file = os.path.join(BROWARD_OUTPUT_DIR, "sketch.png")`
(app.py:2399) — a fixed name, independent of the request. -/
def bcpa_sketch_file (base_dir : List Char)
    (_request : List Char × List Char) : List Char :=
  BROWARD_OUTPUT_DIR base_dir ++ "/sketch.png".data

/-- `map_file = os.path.join(BROWARD_OUTPUT_DIR, "map.png")`
(app.py:2427) — a fixed name, independent of the request. -/
def bcpa_map_file (base_dir : List Char)
    (_request : List Char × List Char) : List Char :=
  BROWARD_OUTPUT_DIR base_dir ++ "/map.png".data

/-! ## Helper lemmas -/

/-- Lookup with a key absent from the table yields the default. -/
theorem dictGetD_not_mem (tbl : List (List Char × ℚ)) (key : List Char) (dflt : ℚ)
    (h : key ∉ tbl.map Prod.fst) : dictGetD tbl key dflt = dflt := by
  unfold dictGetD
  have hnone : tbl.find? (fun kv => kv.1 = key) = none := by
    rw [List.find?_eq_none]
    intro kv hkv
    simp only [decide_eq_true_eq]
    intro hk
    exact h (List.mem_map.mpr ⟨kv, hkv, hk⟩)
  rw [hnone]

/-- Integer-keyed version of `dictGetD_not_mem`. -/
theorem dictGetDZ_not_mem (tbl : List (ℤ × ℚ)) (key : ℤ) (dflt : ℚ)
    (h : key ∉ tbl.map Prod.fst) : dictGetDZ tbl key dflt = dflt := by
  unfold dictGetDZ
  have hnone : tbl.find? (fun kv => kv.1 = key) = none := by
    rw [List.find?_eq_none]
    intro kv hkv
    simp only [decide_eq_true_eq]
    intro hk
    exact h (List.mem_map.mpr ⟨kv, hkv, hk⟩)
  rw [hnone]

/-- A lookup result is either the default or one of the table's values. -/
theorem dictGetD_cases (tbl : List (List Char × ℚ)) (key : List Char) (dflt : ℚ) :
    dictGetD tbl key dflt = dflt ∨ ∃ kv ∈ tbl, dictGetD tbl key dflt = kv.2 := by
  unfold dictGetD
  cases hf : tbl.find? (fun kv => kv.1 = key) with
  | none => exact Or.inl rfl
  | some kv => exact Or.inr ⟨kv, List.mem_of_find?_eq_some hf, rfl⟩

/-- Positivity of a lookup whose default and table values are all positive. -/
theorem dictGetD_pos (tbl : List (List Char × ℚ)) (key : List Char) (dflt : ℚ)
    (hd : 0 < dflt) (htbl : ∀ kv ∈ tbl, 0 < kv.2) : 0 < dictGetD tbl key dflt := by
  rcases dictGetD_cases tbl key dflt with h | ⟨kv, hm, h⟩
  · rw [h]; exact hd
  · rw [h]; exact htbl kv hm

/-- Lower bound of a lookup whose default and table values are all at least one. -/
theorem dictGetD_ge_one (tbl : List (List Char × ℚ)) (key : List Char) (dflt : ℚ)
    (hd : 1 ≤ dflt) (htbl : ∀ kv ∈ tbl, 1 ≤ kv.2) : 1 ≤ dictGetD tbl key dflt := by
  rcases dictGetD_cases tbl key dflt with h | ⟨kv, hm, h⟩
  · rw [h]; exact hd
  · rw [h]; exact htbl kv hm

/-! ## Claim theorems -/

/-- C5: for every integer pitch value not among the table keys
{0,2,3,4,5,6,7,8,9,10,12}, the pitch multiplier used by the quantity
estimator (app.py:2792, `BROWARD_PITCH_MULTIPLIERS.get(pitch, 1.118)`)
equals the table's value for pitch 6, namely 1.118; for pitch values in
the table the multiplier is the table entry, and every table entry lies
in [1.000, 1.414].  The estimator's adjusted surface is accordingly the
same for an unknown pitch as for pitch 6. -/
theorem broward_pitch_multiplier_fallback :
    (∀ p : ℤ, p ∉ BROWARD_PITCH_MULTIPLIERS.map Prod.fst →
      dictGetDZ BROWARD_PITCH_MULTIPLIERS p (1118/1000) =
        dictGetDZ BROWARD_PITCH_MULTIPLIERS 6 (1118/1000)) ∧
    dictGetDZ BROWARD_PITCH_MULTIPLIERS 6 (1118/1000) = 1118/1000 ∧
    BROWARD_PITCH_MULTIPLIERS.map Prod.fst = [0, 2, 3, 4, 5, 6, 7, 8, 9, 10, 12] ∧
    (∀ kv ∈ BROWARD_PITCH_MULTIPLIERS, 1 ≤ kv.2 ∧ kv.2 ≤ 1414/1000) ∧
    (∀ (ga w : ℚ) (cx : List Char) (p : ℤ),
      p ∉ BROWARD_PITCH_MULTIPLIERS.map Prod.fst →
      (broward_quantities ga p cx w).adjusted_surface =
        (broward_quantities ga 6 cx w).adjusted_surface) := by
  have h6 : dictGetDZ BROWARD_PITCH_MULTIPLIERS 6 (1118/1000) = 1118/1000 := by
    norm_num [dictGetDZ, BROWARD_PITCH_MULTIPLIERS, List.find?]
  have hfall : ∀ p : ℤ, p ∉ BROWARD_PITCH_MULTIPLIERS.map Prod.fst →
      dictGetDZ BROWARD_PITCH_MULTIPLIERS p (1118/1000) =
        dictGetDZ BROWARD_PITCH_MULTIPLIERS 6 (1118/1000) := by
    intro p hp
    rw [dictGetDZ_not_mem _ _ _ hp, h6]
  refine ⟨hfall, h6, by norm_num [BROWARD_PITCH_MULTIPLIERS], ?_, ?_⟩
  · intro kv hkv
    fin_cases hkv <;> norm_num
  · intro ga w cx p hp
    simp only [broward_quantities]
    rw [hfall p hp, h6]

/-- Witness for `broward_pitch_multiplier_fallback`: pitch 11 is not a
table key and its multiplier equals the pitch-6 multiplier. -/
theorem broward_pitch_multiplier_fallback_witness :
    (11 : ℤ) ∉ BROWARD_PITCH_MULTIPLIERS.map Prod.fst ∧
    dictGetDZ BROWARD_PITCH_MULTIPLIERS 11 (1118/1000) =
      dictGetDZ BROWARD_PITCH_MULTIPLIERS 6 (1118/1000) :=
  ⟨by decide, broward_pitch_multiplier_fallback.1 11 (by decide)⟩

/-- C6: for every squares value and all material and access_level strings,
`generate_sci_pricing_estimate` computes
`baseline_material = squares * price_per_square[material]`,
`labor = baseline_material * 0.42`,
`access_adjustment = (baseline_material + labor) * (access_multiplier - 1)`,
`overhead = (baseline_material + labor + access_adjustment) * 0.18`, and
`estimated_total` as the sum of all four; unknown material keys use the
"shingle" rate 394.31 and unknown access keys the neutral multiplier 1.0
instead of failing. -/
theorem sci_pricing_formulas (payload : SciPayload) (c : SciCalc)
    (h : generate_sci_pricing_estimate payload = some c) :
    c.baseline_material = c.squares * c.price_per_square ∧
    c.labor_and_install = c.baseline_material * (42/100) ∧
    c.access_adjustment =
      (c.baseline_material + c.labor_and_install) * (c.access_multiplier - 1) ∧
    c.overhead_and_margin =
      (c.baseline_material + c.labor_and_install + c.access_adjustment) * (18/100) ∧
    c.estimated_total = c.baseline_material + c.labor_and_install +
      c.access_adjustment + c.overhead_and_margin ∧
    c.price_per_square =
      dictGetD SCI_MATERIAL_PRICE_PER_SQUARE c.material_key (39431/100) ∧
    c.access_multiplier = dictGetD SCI_ACCESS_MULTIPLIERS c.access_key 1 ∧
    (c.material_key ∉ SCI_MATERIAL_PRICE_PER_SQUARE.map Prod.fst →
      c.price_per_square = 39431/100) ∧
    (c.access_key ∉ SCI_ACCESS_MULTIPLIERS.map Prod.fst →
      c.access_multiplier = 1) := by
  have hsh : dictGetD SCI_MATERIAL_PRICE_PER_SQUARE "shingle".data 0 = 39431/100 := by
    unfold dictGetD
    rw [show SCI_MATERIAL_PRICE_PER_SQUARE.find? (fun kv => kv.1 = "shingle".data) =
      some ("shingle".data, 39431/100) from rfl]
  simp only [generate_sci_pricing_estimate, sci_calc_from, hsh] at h
  split at h
  · exact absurd h (by simp)
  · rw [Option.some.injEq] at h
    subst h
    refine ⟨rfl, rfl, rfl, rfl, rfl, rfl, rfl, ?_, ?_⟩
    · intro hm
      exact dictGetD_not_mem _ _ _ hm
    · intro hm
      exact dictGetD_not_mem _ _ _ hm

/-- Witness for `sci_pricing_formulas`: on the payload
(material "granite", access "roof", squares 20) the computation succeeds
with baseline_material 7886.2 = 20 * 394.31 (shingle fallback rate). -/
theorem sci_pricing_formulas_witness : (39431 : ℚ)/5 = 20 * (39431/100) := by
  have h : generate_sci_pricing_estimate ⟨"granite".data, "roof".data, some (.vNum 20)⟩ =
      some ⟨"granite".data, "roof".data, 20, 39431/100, 1, 39431/5, 828051/250, 0,
        25196409/12500, 165176459/12500, 20, 7886, 13214⟩ := by
    have hs1 : lowerL (stripL "granite".data) = "granite".data := by decide
    have hs2 : lowerL (stripL "roof".data) = "roof".data := by decide
    have hm : dictGetD SCI_MATERIAL_PRICE_PER_SQUARE "granite".data
        (dictGetD SCI_MATERIAL_PRICE_PER_SQUARE "shingle".data 0) = 39431/100 := by
      unfold dictGetD
      rw [show SCI_MATERIAL_PRICE_PER_SQUARE.find? (fun kv => kv.1 = "granite".data) = none
        from by decide]
      rw [show SCI_MATERIAL_PRICE_PER_SQUARE.find? (fun kv => kv.1 = "shingle".data) =
        some ("shingle".data, 39431/100) from rfl]
    have ha : dictGetD SCI_ACCESS_MULTIPLIERS "roof".data 1 = 1 := by
      unfold dictGetD
      rw [show SCI_ACCESS_MULTIPLIERS.find? (fun kv => kv.1 = "roof".data) = none
        from by decide]
    simp only [generate_sci_pricing_estimate, sci_calc_from, pyTruthy, pyFloat, hs1, hs2, hm, ha]
    norm_num [SciCalc.mk.injEq, pyRound, roundHalfEven]
  exact (sci_pricing_formulas _ _ h).1

/-- C10: `generate_sci_pricing_estimate` clamps its squares input to a
minimum of 0.1 — for every payload whose squares value is absent, `None`,
an empty string, zero, or negative, the result equals the result for
squares 0.1, and baseline_material and estimated_total are strictly
positive. -/
theorem sci_squares_clamped (payload : SciPayload)
    (h : payload.squares = none ∨ payload.squares = some .vNone ∨
         payload.squares = some (.vStr []) ∨ payload.squares = some (.vNum 0) ∨
         ∃ q : ℚ, q < 0 ∧ payload.squares = some (.vNum q)) :
    generate_sci_pricing_estimate payload =
      generate_sci_pricing_estimate
        ⟨payload.material, payload.access_level, some (.vNum (1/10))⟩ ∧
    (∀ c : SciCalc, generate_sci_pricing_estimate payload = some c →
      c.squares = 1/10 ∧ 0 < c.baseline_material ∧ 0 < c.estimated_total) := by
  have hlhs : generate_sci_pricing_estimate payload =
      some (sci_calc_from (lowerL (stripL payload.material))
        (lowerL (stripL payload.access_level)) (1/10)) := by
    rcases h with h | h | h | h | ⟨q, hq, h⟩
    case _ | _ | _ | _ =>
      simp only [generate_sci_pricing_estimate, h, Option.getD_some, Option.getD_none,
        pyTruthy, pyFloat]
      norm_num [max_eq_right]
    case _ =>
      simp only [generate_sci_pricing_estimate, h, Option.getD_some, pyTruthy, pyFloat]
      norm_num [hq.ne, max_eq_right (le_trans hq.le (by norm_num : (0 : ℚ) ≤ 1/10))]
  have hrhs : generate_sci_pricing_estimate
      ⟨payload.material, payload.access_level, some (.vNum (1/10))⟩ =
      some (sci_calc_from (lowerL (stripL payload.material))
        (lowerL (stripL payload.access_level)) (1/10)) := by
    simp only [generate_sci_pricing_estimate, Option.getD_some, pyTruthy, pyFloat]
    norm_num
  refine ⟨hlhs.trans hrhs.symm, ?_⟩
  intro c hc
  rw [hlhs, Option.some.injEq] at hc
  subst hc
  have hprice : 0 < dictGetD SCI_MATERIAL_PRICE_PER_SQUARE
      (lowerL (stripL payload.material))
      (dictGetD SCI_MATERIAL_PRICE_PER_SQUARE "shingle".data 0) := by
    refine dictGetD_pos _ _ _ ?_ ?_
    · unfold dictGetD
      rw [show SCI_MATERIAL_PRICE_PER_SQUARE.find? (fun kv => kv.1 = "shingle".data) =
        some ("shingle".data, 39431/100) from rfl]
      norm_num
    · intro kv hkv
      fin_cases hkv <;> norm_num
  have ham : 1 ≤ dictGetD SCI_ACCESS_MULTIPLIERS
      (lowerL (stripL payload.access_level)) 1 := by
    refine dictGetD_ge_one _ _ _ le_rfl ?_
    intro kv hkv
    fin_cases hkv <;> norm_num
  refine ⟨rfl, ?_, ?_⟩
  · simp only [sci_calc_from]
    positivity
  · simp only [sci_calc_from]
    nlinarith [hprice, ham]

/-- Witness for `sci_squares_clamped`: the payload
(material "tile", access "ground", squares -7) prices identically to
squares 0.1. -/
theorem sci_squares_clamped_witness :
    generate_sci_pricing_estimate ⟨"tile".data, "ground".data, some (.vNum (-7))⟩ =
      generate_sci_pricing_estimate ⟨"tile".data, "ground".data, some (.vNum (1/10))⟩ :=
  (sci_squares_clamped ⟨"tile".data, "ground".data, some (.vNum (-7))⟩
    (Or.inr (Or.inr (Or.inr (Or.inr ⟨-7, by norm_num, rfl⟩))))).1

/-- C1 (amended): the waste_breakdown rows are exactly the fixed candidates
{0,10,12,15,17,20,22} in ascending order; each row carries
`round(adjusted_surface * (1 + waste/100), 0)` as area and
`round(area_before_rounding / 100, 1)` as squares, and is flagged
recommended exactly when its candidate is within 1.1 of `waste_percent`.
The number of recommended rows therefore equals the number of candidates
within 1.1 of `waste_percent` — zero when none is close enough, but two
(not one) when `waste_percent` lies within 1.1 of two adjacent candidates. -/
theorem waste_breakdown_structure (ga : ℚ) (p : ℤ) (cx : List Char) (w : ℚ) :
    (broward_quantities ga p cx w).waste_breakdown.map (fun r => r.waste) =
      [0, 10, 12, 15, 17, 20, 22] ∧
    (∀ r ∈ (broward_quantities ga p cx w).waste_breakdown,
      r.area = pyRound ((broward_quantities ga p cx w).adjusted_surface *
        (1 + (r.waste : ℚ)/100)) 0 ∧
      r.squares = pyRound ((broward_quantities ga p cx w).adjusted_surface *
        (1 + (r.waste : ℚ)/100) / 100) 1 ∧
      (r.recommended = true ↔ |(r.waste : ℚ) - w| < 11/10)) ∧
    (broward_quantities ga p cx w).waste_breakdown.countP (fun r => r.recommended) =
      BROWARD_WASTE_OPTIONS.countP (fun (o : ℤ) => |(o : ℚ) - w| < 11/10) ∧
    ((∀ o : ℤ, o ∈ BROWARD_WASTE_OPTIONS → ¬(|(o : ℚ) - w| < 11/10)) →
      (broward_quantities ga p cx w).waste_breakdown.countP
        (fun r => r.recommended) = 0) := by
  have hcount : (broward_quantities ga p cx w).waste_breakdown.countP
      (fun r => r.recommended) =
      BROWARD_WASTE_OPTIONS.countP (fun (o : ℤ) => |(o : ℚ) - w| < 11/10) := by
    simp only [broward_quantities, List.countP_map]
    rfl
  refine ⟨?_, ?_, hcount, ?_⟩
  · simp [broward_quantities, BROWARD_WASTE_OPTIONS]
  · intro r hr
    simp only [broward_quantities, BROWARD_WASTE_OPTIONS, List.map_cons, List.map_nil,
      List.mem_cons, List.not_mem_nil, or_false] at hr
    rcases hr with rfl | rfl | rfl | rfl | rfl | rfl | rfl <;>
      exact ⟨rfl, rfl, by simp⟩
  · intro hall
    rw [hcount, List.countP_eq_zero]
    intro o ho
    simpa using hall o ho

/-- Witness for `waste_breakdown_structure`: with waste_percent 12 exactly
one row is recommended, and with waste_percent 100 no candidate is within
1.1 so no row is recommended. -/
theorem waste_breakdown_structure_witness :
    (broward_quantities 2000 6 "moderate".data 12).waste_breakdown.countP
      (fun r => r.recommended) = 1 ∧
    (broward_quantities 2000 6 "moderate".data 100).waste_breakdown.countP
      (fun r => r.recommended) = 0 := by
  constructor
  · rw [(waste_breakdown_structure 2000 6 "moderate".data 12).2.2.1]
    norm_num [BROWARD_WASTE_OPTIONS, List.countP_cons, List.countP_nil, abs_lt]
  · refine (waste_breakdown_structure 2000 6 "moderate".data 100).2.2.2 ?_
    intro o ho
    simp only [BROWARD_WASTE_OPTIONS, List.mem_cons, List.not_mem_nil, or_false] at ho
    rcases ho with rfl | rfl | rfl | rfl | rfl | rfl | rfl <;> norm_num [abs_lt]

/-- C1 counterexample: with adjusted surface from (ground 100, pitch 0,
complexity "simple") and inferred waste_percent 11 — which is within 1.1
of the candidate 10 — the breakdown flags TWO rows (10 and 12) as
recommended, not exactly one as the claim states. -/
theorem waste_breakdown_counterexample :
    (10 : ℤ) ∈ BROWARD_WASTE_OPTIONS ∧
    |((10 : ℤ) : ℚ) - 11| < 11/10 ∧
    (broward_quantities 100 0 "simple".data 11).waste_breakdown.countP
      (fun r => r.recommended) = 2 := by
  refine ⟨by decide, by norm_num, ?_⟩
  simp only [broward_quantities, BROWARD_WASTE_OPTIONS, List.countP_map]
  norm_num [List.countP_cons, List.countP_nil, Function.comp, abs_lt]

/-- C4 (amended): the estimator computes `final_squares = final_area / 100`
exactly on the unrounded values, with
`final_area = adjusted_surface * (1 + waste_percent/100)`; the fields
returned to the caller are display-rounded (final_area to a whole number,
final_squares to one decimal), so the returned pair satisfies the relation
only up to that rounding. -/
theorem final_squares_relation (ga : ℚ) (p : ℤ) (cx : List Char) (w : ℚ) :
    (broward_quantities ga p cx w).final_area =
      (broward_quantities ga p cx w).adjusted_surface * (1 + w/100) ∧
    (broward_quantities ga p cx w).final_squares =
      (broward_quantities ga p cx w).final_area / 100 ∧
    (broward_quantities ga p cx w).final_area_out =
      pyRound (broward_quantities ga p cx w).final_area 0 ∧
    (broward_quantities ga p cx w).final_squares_out =
      pyRound (broward_quantities ga p cx w).final_squares 1 :=
  ⟨rfl, rfl, rfl, rfl⟩

/-- C4 counterexample: at (ground 100, pitch 0, "simple", waste 0) the
returned dict has final_area 106 and final_squares 1.1 (rounded from
1.06), so the returned values violate `final_squares == final_area / 100`. -/
theorem final_squares_out_counterexample :
    (broward_quantities 100 0 "simple".data 0).final_area_out = 106 ∧
    (broward_quantities 100 0 "simple".data 0).final_squares_out = 11/10 ∧
    (broward_quantities 100 0 "simple".data 0).final_squares_out ≠
      (broward_quantities 100 0 "simple".data 0).final_area_out / 100 := by
  norm_num [broward_quantities, pyRound, roundHalfEven, dictGetDZ, dictGetD,
    BROWARD_PITCH_MULTIPLIERS, BROWARD_COMPLEXITY_MULTIPLIERS,
    BROWARD_ESTIMATOR_ADJUSTMENT, List.find?]

/-- C2 (amended): the call to `_ask_openai_pitch_complexity_waste` at
app.py:2782 is not wrapped in any `try/except`, so a raised inference
failure (missing API key, unreadable map, network error, empty or
non-JSON response) propagates to the caller of
`generate_broward_estimate`; the documented defaults (pitch 5,
complexity "moderate", waste 12.0) are applied only to missing or
malformed fields inside a successfully parsed response. -/
theorem inference_error_propagates_defaults (ga : ℚ) (hasKey mapOk : Bool)
    (co : Except (List Char) AIGuess) :
    (∀ msg : List Char,
      ask_openai_pitch_complexity_waste hasKey mapOk co = .error msg →
      generate_broward_estimate_core ga
        (ask_openai_pitch_complexity_waste hasKey mapOk co) = .error msg) ∧
    (hasKey = false →
      generate_broward_estimate_core ga
        (ask_openai_pitch_complexity_waste hasKey mapOk co) = .error openai_key_error) ∧
    generate_broward_estimate_core ga (.ok ⟨none, none, none⟩) =
      .ok (broward_quantities ga 5 "moderate".data 12) := by
  refine ⟨?_, ?_, ?_⟩
  · intro msg h
    rw [h]
    rfl
  · intro hk
    subst hk
    rfl
  · show Except.ok (broward_quantities ga (guess_pitch ⟨none, none, none⟩)
      (guess_complexity ⟨none, none, none⟩) (guess_waste ⟨none, none, none⟩)) = _
    rw [show guess_complexity ⟨none, none, none⟩ = "moderate".data from by decide,
      show guess_pitch ⟨none, none, none⟩ = 5 from rfl,
      show guess_waste ⟨none, none, none⟩ = 12 from rfl]

/-- Witness for `inference_error_propagates_defaults`: an unreadable map
raises, and that error is what the pipeline returns. -/
theorem inference_error_propagates_defaults_witness :
    generate_broward_estimate_core 1000
      (ask_openai_pitch_complexity_waste true false (.ok ⟨none, none, none⟩)) =
      .error map_missing_error :=
  (inference_error_propagates_defaults 1000 true false (.ok ⟨none, none, none⟩)).1
    map_missing_error rfl

/-- C2 counterexample: with the API key missing (and likewise for a network
failure) `generate_broward_estimate` does not return an estimate built
from the default GeometryGuess — the inference failure propagates to the
caller as an error. -/
theorem inference_failure_counterexample :
    generate_broward_estimate_core 1000
      (ask_openai_pitch_complexity_waste false true (.ok ⟨none, none, none⟩)) =
      .error openai_key_error ∧
    generate_broward_estimate_core 1000
      (ask_openai_pitch_complexity_waste true true (.error "timed out".data)) =
      .error "timed out".data :=
  ⟨rfl, rfl⟩

/-- C3 (amended): routing is a pure function of (address, city); a city
containing "palm beach" (case-insensitively) routes to Palm Beach, but so
do the members of a fixed set of Palm Beach city names (e.g. "Boca
Raton") and any (address, city) whose combined text contains "palm beach
county" — so not every city without "Palm Beach" in it routes to Broward.
Remaining requests route to Broward, with "(Broward)" appended exactly
when the stripped city neither contains "broward" nor is a recognized
Broward-area city (an empty city becomes "Broward"). -/
theorem route_jurisdiction_cases (address city : List Char) :
    ((route_jurisdiction address city).1 = Variant.palmBeach ↔
      is_palm_beach_address address (stripL city) = true) ∧
    (containsL (lowerL (stripL city)) "palm beach".data = true →
      (route_jurisdiction address city).1 = Variant.palmBeach) ∧
    (is_palm_beach_address address (stripL city) = true →
      (route_jurisdiction address city).2 = stripL city) ∧
    (is_palm_beach_address address (stripL city) = false →
      (route_jurisdiction address city).1 = Variant.broward ∧
      ((containsL (lowerL (stripL city)) "broward".data = true ∨
        lowerL (stripL city) ∈ broward_area_cities) →
        (route_jurisdiction address city).2 = stripL city) ∧
      (containsL (lowerL (stripL city)) "broward".data = false →
        lowerL (stripL city) ∉ broward_area_cities →
        stripL city ≠ [] →
        (route_jurisdiction address city).2 = stripL city ++ " (Broward)".data) ∧
      (containsL (lowerL (stripL city)) "broward".data = false →
        lowerL (stripL city) ∉ broward_area_cities →
        stripL city = [] →
        (route_jurisdiction address city).2 = "Broward".data)) := by
  refine ⟨?_, ?_, ?_, ?_⟩
  · by_cases h : is_palm_beach_address address (stripL city) = true
    · simp [route_jurisdiction, h]
    · rw [Bool.not_eq_true] at h
      simp only [route_jurisdiction, h, Bool.false_eq_true, if_false]
      constructor
      · intro hv
        split at hv <;> simp_all
      · intro hv
        exact hv.elim
  · intro hc
    have hpb : is_palm_beach_address address (stripL city) = true := by
      unfold is_palm_beach_address
      simp only [hc]
      split <;> simp
    simp [route_jurisdiction, hpb]
  · intro h
    simp [route_jurisdiction, h]
  · intro h
    refine ⟨?_, ?_, ?_, ?_⟩
    · simp only [route_jurisdiction, h, Bool.false_eq_true, if_false]
      split <;> rfl
    · intro hor
      have hcond : (!containsL (lowerL (stripL city)) "broward".data &&
          !(lowerL (stripL city) ∈ broward_area_cities : Bool)) = false := by
        rcases hor with hb | hm
        · simp [hb]
        · simp [hm]
      simp [route_jurisdiction, h, hcond]
    · intro hb hm hne
      have hcond : (!containsL (lowerL (stripL city)) "broward".data &&
          !(lowerL (stripL city) ∈ broward_area_cities : Bool)) = true := by
        simp [hb, hm]
      have hemp : (stripL city).isEmpty = false := by
        simpa [List.isEmpty_iff] using hne
      simp [route_jurisdiction, h, hcond, hemp]
    · intro hb hm hemp
      simp only [route_jurisdiction]
      rw [hemp] at h ⊢
      simp only [h, Bool.false_eq_true, if_false]
      decide

/-- Witness for `route_jurisdiction_cases`: "Hialeah" (not recognized)
gets the "(Broward)" suffix; " Davie " (recognized after stripping) does
not. -/
theorem route_jurisdiction_cases_witness :
    (route_jurisdiction "1 Elm".data "Hialeah".data).2 = "Hialeah (Broward)".data ∧
    (route_jurisdiction "1 Elm".data " Davie ".data).2 = "Davie".data := by
  constructor
  · exact ((((route_jurisdiction_cases "1 Elm".data "Hialeah".data).2.2.2
      (by decide)).2.2.1) (by decide) (by decide) (by decide)).trans (by decide)
  · exact ((((route_jurisdiction_cases "1 Elm".data " Davie ".data).2.2.2
      (by decide)).2.1) (Or.inr (by decide))).trans (by decide)

/-- C3 counterexample: the city "Boca Raton" does not contain "Palm
Beach", yet it routes to the Palm Beach scraper variant (it is in the
fixed Palm Beach city-name set of `_is_palm_beach_address`), refuting
"every other city string routes to the Broward variant". -/
theorem routing_counterexample :
    containsL (lowerL "Boca Raton".data) "palm beach".data = false ∧
    (route_jurisdiction "123 Main St".data "Boca Raton".data).1 = Variant.palmBeach := by
  decide

/-- The body of a scraper run emits only step events: no acquire, no
release. -/
theorem bodyTrace_counts (fails : List Char → Bool) :
    ∀ steps : List (List Char),
      (bodyTrace fails steps).1.count SessionEv.release = 0 ∧
      (bodyTrace fails steps).1.count SessionEv.acquire = 0 := by
  intro steps
  induction steps with
  | nil => simp [bodyTrace]
  | cons s rest ih =>
    by_cases hf : fails s = true
    · simp [bodyTrace, hf, List.count_cons]
    · simp only [Bool.not_eq_true] at hf
      simp [bodyTrace, hf, List.count_cons, ih.1, ih.2]

/-- C8: for every run of either scraper variant, whether the body returns
normally or raises at any step, the browser session created by
`create_driver()` is released exactly once by the `finally: driver.quit()`
block (and acquired exactly once); when driver creation itself fails, no
session exists — the trace is empty. -/
theorem scraper_session_released_once (createOk : Bool) (fails : List Char → Bool) :
    (createOk = true →
      (run_scraper_session createOk fails bcpa_steps).1.count SessionEv.release = 1 ∧
      (run_scraper_session createOk fails bcpa_steps).1.count SessionEv.acquire = 1 ∧
      (run_scraper_session createOk fails pbcpao_steps).1.count SessionEv.release = 1 ∧
      (run_scraper_session createOk fails pbcpao_steps).1.count SessionEv.acquire = 1) ∧
    (createOk = false →
      (run_scraper_session createOk fails bcpa_steps).1 = [] ∧
      (run_scraper_session createOk fails pbcpao_steps).1 = []) := by
  constructor
  · intro hc
    subst hc
    have hb := bodyTrace_counts fails bcpa_steps
    have hp := bodyTrace_counts fails pbcpao_steps
    refine ⟨?_, ?_, ?_, ?_⟩ <;>
      simp [run_scraper_session, List.count_cons, List.count_append,
        List.count_singleton, hb.1, hb.2, hp.1, hp.2]
  · intro hc
    subst hc
    simp [run_scraper_session]

/-- Witness for `scraper_session_released_once`: a run whose
`click_search` step raises still releases its session exactly once. -/
theorem scraper_session_released_once_witness :
    (run_scraper_session true (fun s => s = "click_search".data) bcpa_steps).1.count
      SessionEv.release = 1 :=
  ((scraper_session_released_once true (fun s => s = "click_search".data)).1 rfl).1

/-- C9 (amended): every estimate run's browser session is configured with
the SAME process-wide download directory `BROWARD_OUTPUT_DIR` (BASE_DIR
joined with "bcpa_outputs") and the same fixed working file names —
`create_driver()` takes no per-request input — so per-run isolation of
download/working files does not hold; the configuration is headless with
a fixed 1920x1080 viewport. -/
theorem driver_config_shared (base_dir : List Char) (r1 r2 : List Char × List Char) :
    (driver_config_for_run base_dir r1).prefs.download_default_directory =
      BROWARD_OUTPUT_DIR base_dir ∧
    driver_config_for_run base_dir r1 = driver_config_for_run base_dir r2 ∧
    bcpa_sketch_file base_dir r1 = bcpa_sketch_file base_dir r2 ∧
    bcpa_map_file base_dir r1 = bcpa_map_file base_dir r2 ∧
    (driver_config_for_run base_dir r1).headless = true ∧
    (driver_config_for_run base_dir r1).window_width = 1920 ∧
    (driver_config_for_run base_dir r1).window_height = 1080 :=
  ⟨rfl, rfl, rfl, rfl, rfl, rfl, rfl⟩

/-- C9 counterexample: two distinct estimate requests receive identical
download directories and identical working file paths — not dedicated
per-run ones — so concurrent runs can collide. -/
theorem per_run_isolation_counterexample :
    ("1 Main St".data, "Hollywood".data) ≠ ("2 Oak Ave".data, "Davie".data) ∧
    driver_config_for_run "/app/PermitProject".data ("1 Main St".data, "Hollywood".data) =
      driver_config_for_run "/app/PermitProject".data ("2 Oak Ave".data, "Davie".data) ∧
    bcpa_sketch_file "/app/PermitProject".data ("1 Main St".data, "Hollywood".data) =
      bcpa_sketch_file "/app/PermitProject".data ("2 Oak Ave".data, "Davie".data) :=
  ⟨by decide, rfl, rfl⟩

/-- Characters of the base64 alphabet are not whitespace. -/
theorem b64Alphabet_not_ws : ∀ c ∈ b64Alphabet, isPyWs c = false := by decide

/-- Output characters of `b64Char` are never whitespace. -/
theorem b64Char_not_ws (i : ℕ) : isPyWs (b64Char i) = false := by
  unfold b64Char
  rcases h : b64Alphabet.get? i with _ | c
  · rw [List.getD_eq_getD_get?, h]
    decide
  · rw [List.getD_eq_getD_get?, h]
    exact b64Alphabet_not_ws c (List.get?_mem h)

/-- Base64-encoded data contains no whitespace. -/
theorem b64Encode_not_ws : ∀ bs : List ℕ, ∀ c ∈ b64Encode bs, isPyWs c = false := by
  intro bs
  induction bs using b64Encode.induct with
  | case1 =>
    intro c hc
    simp [b64Encode] at hc
  | case2 a =>
    intro c hc
    simp only [b64Encode, List.mem_cons, List.not_mem_nil, or_false] at hc
    rcases hc with rfl | rfl | rfl | rfl
    · exact b64Char_not_ws _
    · exact b64Char_not_ws _
    · decide
    · decide
  | case3 a b =>
    intro c hc
    simp only [b64Encode, List.mem_cons, List.not_mem_nil, or_false] at hc
    rcases hc with rfl | rfl | rfl | rfl
    · exact b64Char_not_ws _
    · exact b64Char_not_ws _
    · exact b64Char_not_ws _
    · decide
  | case4 a b cc rest ih =>
    intro c hc
    simp only [b64Encode, List.mem_cons] at hc
    rcases hc with rfl | rfl | rfl | rfl | hm
    · exact b64Char_not_ws _
    · exact b64Char_not_ws _
    · exact b64Char_not_ws _
    · exact b64Char_not_ws _
    · exact ih c hm

/-- Dropping by a predicate that holds nowhere is the identity. -/
theorem dropWhile_eq_self_of_all (p : Char → Bool) (l : List Char)
    (h : ∀ c ∈ l, p c = false) : l.dropWhile p = l := by
  cases l with
  | nil => rfl
  | cons x xs =>
    rw [List.dropWhile_cons, if_neg]
    simp [h x (List.mem_cons_self x xs)]

/-- Stripping a string with no whitespace characters is the identity. -/
theorem stripL_eq_of_all (l : List Char) (h : ∀ c ∈ l, isPyWs c = false) :
    stripL l = l := by
  unfold stripL
  rw [dropWhile_eq_self_of_all _ _ h,
    dropWhile_eq_self_of_all _ _ (fun c hc => h c (List.mem_reverse.mp hc)),
    List.reverse_reverse]

/-- A jpeg data URI contains no whitespace. -/
theorem jpeg_data_uri_not_ws (content : List ℕ) :
    ∀ c ∈ jpeg_data_uri content, isPyWs c = false := by
  intro c hc
  rcases List.mem_append.mp hc with h | h
  · exact (by decide : ∀ x ∈ "data:image/jpeg;base64,".data, isPyWs x = false) c h
  · exact b64Encode_not_ws content c h

/-- A png data URI contains no whitespace. -/
theorem png_data_uri_not_ws (content : List ℕ) :
    ∀ c ∈ png_data_uri content, isPyWs c = false := by
  intro c hc
  rcases List.mem_append.mp hc with h | h
  · exact (by decide : ∀ x ∈ "data:image/png;base64,".data, isPyWs x = false) c h
  · exact b64Encode_not_ws content c h

/-- A jpeg data URI is never the empty string. -/
theorem jpeg_data_uri_isEmpty (content : List ℕ) :
    (jpeg_data_uri content).isEmpty = false := rfl

/-- A png data URI is never the empty string. -/
theorem png_data_uri_isEmpty (content : List ℕ) :
    (png_data_uri content).isEmpty = false := rfl

/-- app.py:2636-2637: `_as_image_url_obj` passes a jpeg data URI through
unchanged (the `.strip()` is the identity on it). -/
theorem as_image_url_obj_jpeg (fs : List Char → Option (List ℕ)) (content : List ℕ) :
    as_image_url_obj fs (jpeg_data_uri content) = some (jpeg_data_uri content) := by
  have hstrip := stripL_eq_of_all _ (jpeg_data_uri_not_ws content)
  have hpre : startsWithL (jpeg_data_uri content) "data:image/".data = true := by
    rw [startsWithL, List.isPrefixOf_iff_prefix]
    refine ⟨"jpeg;base64,".data ++ b64Encode content, ?_⟩
    rw [jpeg_data_uri,
      show "data:image/jpeg;base64,".data = "data:image/".data ++ "jpeg;base64,".data
        from by decide,
      List.append_assoc]
  simp [as_image_url_obj, jpeg_data_uri_isEmpty, hstrip, hpre]

/-- app.py:2636-2637: `_as_image_url_obj` passes a png data URI through
unchanged. -/
theorem as_image_url_obj_png (fs : List Char → Option (List ℕ)) (content : List ℕ) :
    as_image_url_obj fs (png_data_uri content) = some (png_data_uri content) := by
  have hstrip := stripL_eq_of_all _ (png_data_uri_not_ws content)
  have hpre : startsWithL (png_data_uri content) "data:image/".data = true := by
    rw [startsWithL, List.isPrefixOf_iff_prefix]
    refine ⟨"png;base64,".data ++ b64Encode content, ?_⟩
    rw [png_data_uri,
      show "data:image/png;base64,".data = "data:image/".data ++ "png;base64,".data
        from by decide,
      List.append_assoc]
  simp [as_image_url_obj, png_data_uri_isEmpty, hstrip, hpre]

/-- `photo_data_uri` is either empty or a jpeg/png data URI built from
fetched bytes. -/
theorem photo_data_uri_cases (d : ScrapeData) (w : FetchWorld) :
    photo_data_uri d w = [] ∨
    (∃ content, photo_data_uri d w = jpeg_data_uri content) ∨
    (∃ content, photo_data_uri d w = png_data_uri content) := by
  unfold photo_data_uri
  repeat' split
  all_goals first
    | exact Or.inl rfl
    | exact Or.inr (Or.inl ⟨_, rfl⟩)
    | exact Or.inr (Or.inr ⟨_, rfl⟩)

/-- `sketch_data_uri` is either empty or a png data URI built from the
sketch file's bytes. -/
theorem sketch_data_uri_cases (d : ScrapeData) (w : FetchWorld) :
    sketch_data_uri d w = [] ∨
    (∃ content, sketch_data_uri d w = png_data_uri content) := by
  unfold sketch_data_uri
  repeat' split
  all_goals first
    | exact Or.inl rfl
    | exact Or.inr ⟨_, rfl⟩

/-- C7: for every pipeline run, the photo and sketch data URIs passed to
the vision-model call (app.py:2782-2786) are the very values stored as
`report_front_image` / `report_sketch_image` in the returned result
(app.py:2836-2837), with no re-encoding in between; moreover, inside the
inference request builder `_as_image_url_obj` embeds a nonempty data URI
verbatim as the image URL, so the bytes sent to the model are
byte-identical to the ones displayed in the report. -/
theorem images_sent_equal_report (d : ScrapeData) (w : FetchWorld)
    (fs : List Char → Option (List ℕ)) :
    (inference_args d w).photo_input = report_front_image d w ∧
    (inference_args d w).sketch_input = report_sketch_image d w ∧
    (inference_args d w).map_file = d.map_file ∧
    (report_front_image d w ≠ [] →
      as_image_url_obj fs (report_front_image d w) = some (report_front_image d w)) ∧
    (report_sketch_image d w ≠ [] →
      as_image_url_obj fs (report_sketch_image d w) = some (report_sketch_image d w)) := by
  refine ⟨rfl, rfl, rfl, ?_, ?_⟩
  · intro hne
    rcases photo_data_uri_cases d w with h | ⟨content, h⟩ | ⟨content, h⟩
    · exact absurd h hne
    · rw [report_front_image, h] at hne ⊢
      exact as_image_url_obj_jpeg fs content
    · rw [report_front_image, h] at hne ⊢
      exact as_image_url_obj_png fs content
  · intro hne
    rcases sketch_data_uri_cases d w with h | ⟨content, h⟩
    · exact absurd h hne
    · rw [report_sketch_image, h] at hne ⊢
      exact as_image_url_obj_png fs content

/-- Witness for `images_sent_equal_report`: a concrete run whose photo
fetch returns bytes [1,2,3] — the data URI in the request equals the one
in the report. -/
theorem images_sent_equal_report_witness :
    (let d : ScrapeData :=
      ⟨"http://bcpa.example/photo.jpg".data, [], "/tmp/sketch.png".data,
        "/tmp/map.png".data, none, none⟩
     let w : FetchWorld := ⟨fun _ => some [1, 2, 3], fun _ => some [4, 5]⟩
     (inference_args d w).photo_input = report_front_image d w ∧
     as_image_url_obj (fun _ => none) (report_front_image d w) =
       some (report_front_image d w)) := by
  dsimp only
  constructor
  · exact (images_sent_equal_report _ _ (fun _ => none)).1
  · exact (images_sent_equal_report _ _ (fun _ => none)).2.2.2.1 (by decide)
